import Mathlib

/-!
Verification development for the research-assistant repository
(src/research_agent.py, src/research_mcp_server.py).

The Python sources are shallowly embedded: pure string manipulation is
translated to Lean functions on `String`/`List Char`; external I/O
(search provider, HTTP fetch, the JSON log file, the report file, the
Coral connection handshake) is modelled by oracle functions returning
`Except PyErr _`, where `Except.error` models a raised Python exception;
`try/except` blocks are modelled by the `pyCatch` combinator.
Argument mappings passed to MCP tool handlers are modelled as association
lists of JSON values (strings and integers, the two value sorts declared
in the tool input schemas).  `datetime.now()` is modelled by a `DateTime`
value carried in the environment; `datetime.isoformat` and the two
`strftime` formats used by the code are implemented over it.
Python's `str.lower` is modelled on the ASCII range (the only range the
repository's data exercises).
-/

/-! ### Basic character and string operations mirroring Python builtins -/

/-- ASCII lowercase conversion of one character, modelling `str.lower`
on the ASCII range: the 26 uppercase letters map to their lowercase
forms, every other character is returned unchanged. -/
def lowerChar (c : Char) : Char :=
  if c = 'A' then 'a' else if c = 'B' then 'b' else if c = 'C' then 'c'
  else if c = 'D' then 'd' else if c = 'E' then 'e' else if c = 'F' then 'f'
  else if c = 'G' then 'g' else if c = 'H' then 'h' else if c = 'I' then 'i'
  else if c = 'J' then 'j' else if c = 'K' then 'k' else if c = 'L' then 'l'
  else if c = 'M' then 'm' else if c = 'N' then 'n' else if c = 'O' then 'o'
  else if c = 'P' then 'p' else if c = 'Q' then 'q' else if c = 'R' then 'r'
  else if c = 'S' then 's' else if c = 'T' then 't' else if c = 'U' then 'u'
  else if c = 'V' then 'v' else if c = 'W' then 'w' else if c = 'X' then 'x'
  else if c = 'Y' then 'y' else if c = 'Z' then 'z' else c

/-- `s.lower()` (ASCII model). -/
def strLower (s : String) : String := ⟨s.data.map lowerChar⟩

/-- `topic.replace(' ', '_')` acts independently on each character. -/
def replaceSpaceChar (c : Char) : Char := if c = ' ' then '_' else c

/-- `s.replace(' ', '_')`. -/
def pyReplaceSpaces (s : String) : String := ⟨s.data.map replaceSpaceChar⟩

/-- Does `needle` occur as a prefix of `hay`?  (List-level helper for the
Python substring operator.) -/
def startsWithList : List Char → List Char → Bool
  | [], _ => true
  | _ :: _, [] => false
  | a :: as, b :: bs => a == b && startsWithList as bs

/-- Does `needle` occur as a contiguous sublist of `hay`? -/
def listHasSub (needle : List Char) : List Char → Bool
  | [] => needle.isEmpty
  | c :: rest => startsWithList needle (c :: rest) || listHasSub needle rest

/-- Python's `needle in hay` on strings (substring containment). -/
def strContainsSub (hay needle : String) : Bool :=
  listHasSub needle.data hay.data

/-- Python string slicing `s[:n]`: the first `n` characters (all of `s`
when it is shorter). -/
def strTake (s : String) (n : Nat) : String := ⟨s.data.take n⟩

/-- Python list slicing `l[start:]` for an arbitrary (possibly negative)
integer `start`: a negative start counts from the end and is clamped at
the front, a nonnegative start is clamped at the back. -/
def pySliceFrom (l : List α) (start : Int) : List α :=
  if start < 0 then l.drop ((l.length + start).toNat) else l.drop start.toNat

/-! ### Decimal rendering and zero padding (for `%Y%m%d`, `isoformat`) -/

/-- The decimal digit character for `n` (callers pass `n ≤ 9`). -/
def digitChar (n : Nat) : Char :=
  if n = 0 then '0' else if n = 1 then '1' else if n = 2 then '2'
  else if n = 3 then '3' else if n = 4 then '4' else if n = 5 then '5'
  else if n = 6 then '6' else if n = 7 then '7' else if n = 8 then '8'
  else '9'

/-- Decimal digits of `n`, most significant first; `fuel` bounds the
recursion (`fuel > n` suffices). -/
def natDigitsAux : Nat → Nat → List Char
  | 0, _ => ['0']
  | fuel + 1, n =>
    if n < 10 then [digitChar n]
    else natDigitsAux fuel (n / 10) ++ [digitChar (n % 10)]

/-- Decimal digits of `n`, most significant first. -/
def natDigits (n : Nat) : List Char := natDigitsAux (n + 1) n

/-- Left-pad a character list with `'0'` to width `w`. -/
def padZeros (w : Nat) (l : List Char) : List Char :=
  List.replicate (w - l.length) '0' ++ l

/-- `n` rendered in decimal, zero-padded to width `w` (Python `%0wd`). -/
def padNum (w n : Nat) : List Char := padZeros w (natDigits n)

/-! ### The `datetime` model -/

/-- A naive `datetime.datetime` value as produced by `datetime.now()`. -/
structure DateTime where
  year : Nat
  month : Nat
  day : Nat
  hour : Nat
  minute : Nat
  second : Nat
  microsecond : Nat
deriving DecidableEq

/-- The invariant Python's `datetime` constructor enforces on every value
(`MINYEAR = 1`, `MAXYEAR = 9999`), hence satisfied by `datetime.now()`. -/
def DateTime.valid (t : DateTime) : Prop :=
  1 ≤ t.year ∧ t.year ≤ 9999 ∧ 1 ≤ t.month ∧ t.month ≤ 12 ∧
  1 ≤ t.day ∧ t.day ≤ 31 ∧ t.hour ≤ 23 ∧ t.minute ≤ 59 ∧
  t.second ≤ 59 ∧ t.microsecond ≤ 999999

instance (t : DateTime) : Decidable t.valid := by
  unfold DateTime.valid; infer_instance

/-- `datetime.isoformat()`: `YYYY-MM-DDTHH:MM:SS` followed by
`.ffffff` exactly when the microsecond field is nonzero. -/
def DateTime.isoformat (t : DateTime) : String :=
  ⟨padNum 4 t.year ++ '-' :: padNum 2 t.month ++ '-' :: padNum 2 t.day ++
    'T' :: padNum 2 t.hour ++ ':' :: padNum 2 t.minute ++ ':' :: padNum 2 t.second ++
    (if t.microsecond = 0 then [] else '.' :: padNum 6 t.microsecond)⟩

/-- `strftime('%Y%m%d_%H%M')`, used in the report filename. -/
def strftimeCompact (t : DateTime) : String :=
  ⟨padNum 4 t.year ++ padNum 2 t.month ++ padNum 2 t.day ++
    '_' :: (padNum 2 t.hour ++ padNum 2 t.minute)⟩

/-- `strftime('%Y-%m-%d %H:%M')`, used inside the report bodies. -/
def strftimeHuman (t : DateTime) : String :=
  ⟨padNum 4 t.year ++ '-' :: padNum 2 t.month ++ '-' :: padNum 2 t.day ++
    ' ' :: (padNum 2 t.hour ++ ':' :: padNum 2 t.minute)⟩

/-- Recogniser for ISO-8601 date-time strings of the shape
`YYYY-MM-DDTHH:MM:SS` optionally followed by `.ffffff`
(the shapes `datetime.isoformat` produces for naive datetimes). -/
def isValidISO8601 (s : String) : Bool :=
  match s.data with
  | y1 :: y2 :: y3 :: y4 :: sep1 :: mo1 :: mo2 :: sep2 :: d1 :: d2 :: sepT ::
      h1 :: h2 :: col1 :: mi1 :: mi2 :: col2 :: s1 :: s2 :: rest =>
    sep1 == '-' && sep2 == '-' && sepT == 'T' && col1 == ':' && col2 == ':' &&
    [y1, y2, y3, y4, mo1, mo2, d1, d2, h1, h2, mi1, mi2, s1, s2].all Char.isDigit &&
    (match rest with
     | [] => true
     | dot :: frac => dot == '.' && frac.length == 6 && frac.all Char.isDigit)
  | _ => false

/-! ### Data model shared by the MCP server and the agent -/

/-- A JSON scalar as carried in an MCP tool-call argument mapping; the
tool input schemas of `research_mcp_server.py` declare only `string` and
`integer` parameters, and argument mappings are assumed to conform to
the declared schema (the wire contract of spec section 6). -/
inductive JVal where
  | s (v : String)
  | i (v : Int)
deriving DecidableEq

/-- Read a schema-`string` argument value. -/
def JVal.asStr : JVal → String
  | .s v => v
  | .i n => toString n

/-- Read a schema-`integer` argument value. -/
def JVal.asInt : JVal → Int
  | .i n => n
  | .s _ => 0

/-- The `arguments: Dict[str, Any]` mapping of a tool call, as an
association list with at most one binding per key taken first-wins. -/
def Args : Type := List (String × JVal)

/-- Python `arguments.get(key)` (None when absent). -/
def argsGet : Args → String → Option JVal
  | [], _ => none
  | (k, v) :: rest, key => if k = key then some v else argsGet rest key

/-- Python `arguments.get(key, default)`. -/
def argsGetD (a : Args) (key : String) (d : JVal) : JVal :=
  (argsGet a key).getD d

/-- A raised Python exception, as observed through `str(e)`. -/
structure PyErr where
  msg : String
deriving DecidableEq

/-- `mcp.types.TextContent` (the `type="text"` tag is constant). -/
structure TextContent where
  text : String
deriving DecidableEq

/-- One result row returned by `DDGS().text(...)`. -/
structure SearchResult where
  title : String
  href : String
  body : String
deriving DecidableEq

/-- A record of `competitor_tracking.json`: exactly the dictionary that
`track_competitor`/`handle_track_competitor` append. -/
structure LogEntry where
  timestamp : String
  competitor : String
  activity : String
  source : String
deriving DecidableEq

/-- The external world a handler touches: search provider, HTTP fetch
plus HTML extraction, the persisted JSON log file (`none` = the file
does not exist), and the current wall clock.  An `Except.error` outcome
models the collaborator raising an exception. -/
structure Env where
  search : String → Int → Except PyErr (List SearchResult)
  fetch : String → Except PyErr String
  readLogs : Except PyErr (Option (List LogEntry))
  writeLogs : List LogEntry → Except PyErr Unit
  now : DateTime

/-- A Python `try: body except Exception as e: return onErr e` block:
an exception inside `body` is converted into a normal return value. -/
def pyCatch (body : Except PyErr α) (onErr : PyErr → α) : Except PyErr α :=
  match body with
  | .error e => .ok (onErr e)
  | .ok a => .ok a

/-! ### The MCP server handlers (`research_mcp_server.py`) -/

/-- One formatted row of `handle_web_search`'s output. -/
def fmtSearchItem (i : Nat) (r : SearchResult) : String :=
  toString i ++ ". **" ++ r.title ++ "**\n   URL: " ++ r.href ++ "\n   " ++
    strTake r.body 300 ++ "..."

/-- `handle_web_search`: reads `query` (default `""`) and `num_results`
(default `5`), delegates to the search provider, and formats the rows;
the entire body is inside `try/except`. -/
def handleWebSearch (args : Args) (env : Env) : Except PyErr (List TextContent) :=
  pyCatch
    (do
      let query := (argsGetD args "query" (JVal.s "")).asStr
      let numResults := (argsGetD args "num_results" (JVal.i 5)).asInt
      let results ← env.search query numResults
      if results.isEmpty then
        pure [⟨"No results found."⟩]
      else
        pure [⟨String.intercalate "\n\n"
          (results.mapIdx (fun i r => fmtSearchItem (i + 1) r))⟩])
    (fun e => [⟨"Search error: " ++ e.msg⟩])

/-- `handle_fetch_url`: fetches the page (oracle covers `requests` +
BeautifulSoup extraction of the page text), then strips, filters empty
lines, keeps the first 150 lines, and truncates to 8000 characters. -/
def handleFetchUrl (args : Args) (env : Env) : Except PyErr (List TextContent) :=
  pyCatch
    (do
      let url := (argsGetD args "url" (JVal.s "")).asStr
      let text ← env.fetch url
      let lines := ((text.splitOn "\n").map String.trim).filter (fun l => !l.isEmpty)
      let content := String.intercalate "\n" (lines.take 150)
      pure [⟨"Content from " ++ url ++ ":\n\n" ++ strTake content 8000⟩])
    (fun e => [⟨"Error: " ++ e.msg⟩])

/-- `handle_track_competitor`: builds the log entry (timestamp =
`datetime.now().isoformat()`), reads the JSON array (missing file =
empty list), appends, rewrites the file, and confirms. -/
def handleTrackCompetitor (args : Args) (env : Env) : Except PyErr (List TextContent) :=
  pyCatch
    (do
      let competitor := (argsGetD args "competitor_name" (JVal.s "")).asStr
      let activity := (argsGetD args "activity" (JVal.s "")).asStr
      let source := (argsGetD args "source" (JVal.s "")).asStr
      let entry : LogEntry := ⟨env.now.isoformat, competitor, activity, source⟩
      let logs := (← env.readLogs).getD []
      let _ ← env.writeLogs (logs ++ [entry])
      pure [⟨"✓ Logged activity for " ++ competitor ++ ": " ++ strTake activity 60 ++ "..."⟩])
    (fun e => [⟨"Error: " ++ e.msg⟩])

/-- One escaped character of a JSON string literal, as `json.dumps`
renders the characters this repository's data contains (the `\uXXXX`
escapes for other control characters are elided). -/
def jsonEscapeChar (c : Char) : List Char :=
  if c = '"' then ['\\', '"'] else if c = '\\' then ['\\', '\\']
  else if c = '\n' then ['\\', 'n'] else if c = '\t' then ['\\', 't']
  else if c = '\r' then ['\\', 'r'] else [c]

/-- A JSON string literal. -/
def jsonStr (s : String) : String :=
  "\"" ++ ⟨(s.data.map jsonEscapeChar).flatten⟩ ++ "\""

/-- `json.dumps({...}, indent=2)` for a flat dictionary of strings. -/
def jsonObj (pairs : List (String × String)) : String :=
  "\x7b\n" ++
    String.intercalate ",\n"
      (pairs.map (fun p => "  " ++ jsonStr p.1 ++ ": " ++ jsonStr p.2)) ++
  "\n\x7d"

/-- The markdown report body of `handle_generate_report`. -/
def mdReportServer (topic findings ts : String) : String :=
  "# Research Report: " ++ topic ++ "\n\n**Generated:** " ++ ts ++
    "  \n**Agent:** Research Assistant (Coral Protocol)\n\n---\n\n## Findings\n\n" ++
    findings ++ "\n\n---\n\n*Report generated by Coral Protocol Research Agent*\n"

/-- The json report body of `handle_generate_report`. -/
def jsonReportServer (topic ts findings : String) : String :=
  jsonObj [("topic", topic), ("timestamp", ts), ("findings", findings)]

/-- The text report body of `handle_generate_report`. -/
def textReportServer (topic ts findings : String) : String :=
  "RESEARCH REPORT: " ++ topic ++ "\nGenerated: " ++ ts ++ "\n\n" ++ findings

/-- `handle_generate_report`: pure formatting of the three inputs (the
server variant writes no file). -/
def handleGenerateReport (args : Args) (env : Env) : Except PyErr (List TextContent) :=
  pyCatch
    (do
      let topic := (argsGetD args "topic" (JVal.s "")).asStr
      let findings := (argsGetD args "findings" (JVal.s "")).asStr
      let fmtType := (argsGetD args "format_type" (JVal.s "markdown")).asStr
      let ts := strftimeHuman env.now
      let report :=
        if fmtType = "markdown" then mdReportServer topic findings ts
        else if fmtType = "json" then jsonReportServer topic ts findings
        else textReportServer topic ts findings
      pure [⟨report⟩])
    (fun e => [⟨"Error: " ++ e.msg⟩])

/-- The filtering and slicing of `handle_get_logs` on the loaded array:
a nonempty `competitor` filter keeps entries whose competitor field
contains it case-insensitively, then `logs[-limit:]` keeps the most
recent `limit` entries. -/
def getLogsSelect (store : List LogEntry) (cfilter : String) (limit : Int) : List LogEntry :=
  let logs :=
    if cfilter = "" then store
    else store.filter (fun l => strContainsSub (strLower l.competitor) (strLower cfilter))
  pySliceFrom logs (-limit)

/-- One formatted row of `handle_get_logs`'s output. -/
def fmtLogLine (log : LogEntry) : String :=
  "[" ++ strTake log.timestamp 10 ++ "] " ++ log.competitor ++ ": " ++
    strTake log.activity 80 ++ "..."

/-- `handle_get_logs`: reads the persisted array (absent file reports
"No logs found."), selects with `getLogsSelect`, and formats; an empty
selection reports "No matching logs found." rather than failing. -/
def handleGetLogs (args : Args) (env : Env) : Except PyErr (List TextContent) :=
  pyCatch
    (let cfilter := (argsGetD args "competitor" (JVal.s "")).asStr
     let limit := (argsGetD args "limit" (JVal.i 50)).asInt
     match env.readLogs with
     | .error e => .error e
     | .ok none => .ok [⟨"No logs found."⟩]
     | .ok (some logs) =>
       let sel := getLogsSelect logs cfilter limit
       if sel.isEmpty then .ok [⟨"No matching logs found."⟩]
       else .ok [⟨String.intercalate "\n" (sel.map fmtLogLine)⟩])
    (fun e => [⟨"Error: " ++ e.msg⟩])

/-- `call_tool`: dispatch by tool name; an unregistered name yields an
"Unknown tool" text result. -/
def callTool (name : String) (args : Args) (env : Env) : Except PyErr (List TextContent) :=
  if name = "web_search" then handleWebSearch args env
  else if name = "fetch_url" then handleFetchUrl args env
  else if name = "track_competitor" then handleTrackCompetitor args env
  else if name = "generate_report" then handleGenerateReport args env
  else if name = "get_competitor_logs" then handleGetLogs args env
  else .ok [⟨"Unknown tool: " ++ name⟩]

/-! ### The agent-side tools (`research_agent.py`) -/

/-- `summarize_paper`: the placeholder summary template; the body embeds
the first 200 characters of the paper text, and `max_length` is
interpolated only into the header line. -/
def summarizePaper (paperText : String) (maxLength : Int) : String :=
  ("Paper Summary (max " ++ toString maxLength ++ " words):\n\n") ++
    ("Key Points:\n- " ++
      (strTake paperText 200 ++
        "...\n\n[Full summarization would be performed by the LLM using this tool]\n"))

/-- The markdown report body of the agent's `generate_report` (it also
has a Summary section holding the first 500 characters of findings). -/
def mdReportAgent (topic findings ts : String) : String :=
  "# Research Report: " ++ topic ++ "\n\n**Generated:** " ++ ts ++
    "  \n**Agent:** Research Assistant (Coral Protocol)\n\n---\n\n## Summary\n\n" ++
    strTake findings 500 ++ "\n\n## Detailed Findings\n\n" ++ findings ++
    "\n\n---\n\n*Report generated by Coral Protocol Research Agent*\n"

/-- The json report body of the agent's `generate_report`. -/
def jsonReportAgent (topic ts findings : String) : String :=
  jsonObj [("topic", topic), ("timestamp", ts), ("summary", strTake findings 500),
    ("findings", findings)]

/-- The text report body of the agent's `generate_report`. -/
def textReportAgent (topic ts findings : String) : String :=
  "RESEARCH REPORT: " ++ topic ++ "\nGenerated: " ++ ts ++ "\n\n" ++ findings ++ "\n"

/-- The filename extension of the agent's `generate_report`:
`format_type if format_type != 'markdown' else 'md'`. -/
def reportExt (fmtType : String) : String :=
  if fmtType = "markdown" then "md" else fmtType

/-- The saved-report filename of the agent's `generate_report`:
`f"report_{topic.replace(' ', '_').lower()}_{now:%Y%m%d_%H%M}.{ext}"`
where the extension is `md` for markdown and the format string itself
otherwise. -/
def reportFilename (topic fmtType : String) (t : DateTime) : String :=
  "report_" ++ strLower (pyReplaceSpaces topic) ++ "_" ++ strftimeCompact t ++
    "." ++ reportExt fmtType

/-- The agent's `generate_report`: formats the report, derives the
filename, and attempts the file write; only the write sits inside
`try/except`, and a failed write yields the "Error saving report"
message (the formatting itself is pure and cannot raise). -/
def generateReportAgent (topic findings fmtType : String) (now : DateTime)
    (writeFile : String → String → Except PyErr Unit) : String :=
  let ts := strftimeHuman now
  let report :=
    if fmtType = "markdown" then mdReportAgent topic findings ts
    else if fmtType = "json" then jsonReportAgent topic ts findings
    else textReportAgent topic ts findings
  let filename := reportFilename topic fmtType now
  match writeFile filename report with
  | .ok _ => "Report saved to " ++ (filename ++ ("\n\n" ++ (strTake report 1000 ++ "...")))
  | .error e => "Error saving report: " ++ (e.msg ++ ("\n\n" ++ (strTake report 1000 ++ "...")))

/-! ### Log-store semantics of `track_competitor` (single-threaded runs) -/

/-- One call of the competitor-tracking tool: its three string arguments
and the wall-clock instant at which it runs. -/
structure WriteReq where
  competitor : String
  activity : String
  source : String
  now : DateTime
deriving DecidableEq

/-- The log entry such a call appends. -/
def entryOf (w : WriteReq) : LogEntry :=
  ⟨w.now.isoformat, w.competitor, w.activity, w.source⟩

/-- The agent's `track_competitor` acting on the persisted file state
(`none` = `competitor_tracking.json` does not exist): read the array,
append the entry, rewrite the file, confirm. -/
def trackCompetitorRun (w : WriteReq) (file : Option (List LogEntry)) :
    List LogEntry × String :=
  let logs := file.getD []
  let entry := entryOf w
  (logs ++ [entry],
   "✓ Logged activity for " ++ w.competitor ++ ": " ++ strTake w.activity 50 ++ "...")

/-- A single-threaded sequence of `track_competitor` calls threaded
through the file state. -/
def runWrites : List WriteReq → List LogEntry → List LogEntry
  | [], s => s
  | w :: ws, s => runWrites ws (trackCompetitorRun w (some s)).1

/-! ### The Coral connection setup of `create_coralized_agent` -/

/-- A tool as listed in the combined tool set (name and description are
all the uniqueness invariant of spec section 3 talks about). -/
structure ToolEntry where
  name : String
  description : String
deriving DecidableEq

/-- The five native tools, in registration order. -/
def nativeToolEntries : List ToolEntry :=
  [⟨"web_search", "Search the web for information on a given topic."⟩,
   ⟨"fetch_url", "Fetch and extract content from a URL."⟩,
   ⟨"track_competitor", "Track a competitor activity and log it to the database."⟩,
   ⟨"generate_report", "Generate a structured research report."⟩,
   ⟨"summarize_paper", "Summarize a technical paper or long document."⟩]

/-- The spec's ConnectionState enum (section 3). -/
inductive ConnState where
  | Disconnected
  | Connecting
  | Connected
  | Degraded
deriving DecidableEq

/-- The observable outcome of the connection setup: final state, the
combined tool list, how many handshake attempts ran, and the sequence
of retry delays (in seconds) slept between consecutive attempts. -/
structure ConnOutcome where
  state : ConnState
  tools : List ToolEntry
  attempts : Nat
  sleeps : List Nat
deriving DecidableEq

/-- The retry loop of `create_coralized_agent`: `h i` models the attempt
`i` handshake (`MultiServerMCPClient` construction + `get_tools`).  On
success the loop breaks with the advertised tools; on failure it sleeps
`retryDelay` seconds unless this was the final attempt. -/
def connectLoop (h : Nat → Except PyErr (List ToolEntry)) (maxRetries retryDelay : Nat) :
    Nat → Nat → ConnState × List ToolEntry × Nat × List Nat
  | _, 0 => (.Degraded, [], 0, [])
  | attempt, r + 1 =>
    match h attempt with
    | .ok coralTools => (.Connected, coralTools, 1, [])
    | .error _ =>
      if attempt < maxRetries - 1 then
        let rest := connectLoop h maxRetries retryDelay (attempt + 1) r
        (rest.1, rest.2.1, rest.2.2.1 + 1, retryDelay :: rest.2.2.2)
      else (.Degraded, [], 1, [])

/-- The connection setup of `create_coralized_agent`: an absent or empty
`CORAL_SSE_URL` means standalone mode with no attempt at all; otherwise
the retry loop runs with `max_retries = 5`, `retry_delay = 5`, and the
remote tools (if any) are appended to the native tool list with
`all_tools.extend(coral_tools)`. -/
def connectSetup (coralUrl : Option String) (h : Nat → Except PyErr (List ToolEntry)) :
    ConnOutcome :=
  match coralUrl with
  | none => ⟨.Disconnected, nativeToolEntries, 0, []⟩
  | some u =>
    if u = "" then ⟨.Disconnected, nativeToolEntries, 0, []⟩
    else
      let res := connectLoop h 5 5 0 5
      ⟨res.1, nativeToolEntries ++ res.2.1, res.2.2.1, res.2.2.2⟩

/-! ### Spec-side reference definitions -/

/-- Modelled from the spec (section 4.1, `query_logs`): the entries whose
competitor field contains the filter as a case-insensitive substring
(an empty filter matches every entry). -/
def matchingEntries (store : List LogEntry) (cfilter : String) : List LogEntry :=
  store.filter (fun l => strContainsSub (strLower l.competitor) (strLower cfilter))

/-- The header line of `summarize_paper`'s output, the only part that
mentions `max_length`. -/
def summaryHeader (maxLength : Int) : String :=
  "Paper Summary (max " ++ toString maxLength ++ " words):\n\n"

/-- The fixed tail of `summarize_paper`'s output. -/
def summaryTail : String :=
  "...\n\n[Full summarization would be performed by the LLM using this tool]\n"

/-- The 26 uppercase ASCII letters. -/
def upperAsciiChars : List Char :=
  ['A', 'B', 'C', 'D', 'E', 'F', 'G', 'H', 'I', 'J', 'K', 'L', 'M',
   'N', 'O', 'P', 'Q', 'R', 'S', 'T', 'U', 'V', 'W', 'X', 'Y', 'Z']

/-- The 26 lowercase ASCII letters. -/
def lowerAsciiChars : List Char :=
  ['a', 'b', 'c', 'd', 'e', 'f', 'g', 'h', 'i', 'j', 'k', 'l', 'm',
   'n', 'o', 'p', 'q', 'r', 's', 't', 'u', 'v', 'w', 'x', 'y', 'z']

/-! ### Concrete fixtures used by witnesses and counterexamples -/

/-- A concrete wall-clock instant. -/
def dt0 : DateTime := ⟨2025, 7, 10, 9, 30, 0, 0⟩

/-- A concrete environment: the search provider returns one result, the
fetch returns an empty page, the log file holds no entries, writes
succeed. -/
def env0 : Env :=
  ⟨fun _ _ => .ok [⟨"T", "http://u", "B"⟩], fun _ => .ok "", .ok none,
   fun _ => .ok (), dt0⟩

/-- An endpoint whose handshake always fails. -/
def alwaysFailHandshake : Nat → Except PyErr (List ToolEntry) :=
  fun _ => .error ⟨"connection refused"⟩

/-- Two concrete sequential `track_competitor` calls. -/
def ws2 : List WriteReq :=
  [⟨"Acme Corp", "Launched an agent platform", "https://acme.example",
    ⟨2025, 7, 10, 9, 30, 5, 123456⟩⟩,
   ⟨"Beta Labs", "Raised funding", "", ⟨2025, 7, 11, 16, 45, 0, 0⟩⟩]

/-- A one-entry log store. -/
def store1 : List LogEntry :=
  [⟨"2025-07-10T09:30:05.123456", "Acme Corp", "Launched an agent platform",
    "https://acme.example"⟩]

/-- An environment whose log file holds exactly `store` and whose other
collaborators are inert. -/
def envWithStore (store : List LogEntry) : Env :=
  ⟨fun _ _ => .ok [], fun _ => .ok "", .ok (some store), fun _ => .ok (), dt0⟩

/-- A remote tool catalog advertising a tool whose name collides with
the built-in `web_search`. -/
def coralDupTools : List ToolEntry :=
  [⟨"web_search", "Remote duplicate of the built-in search"⟩]

/-! ### Helper lemmas -/

/-- A `try/except`-wrapped body never lets an exception escape. -/
theorem pyCatch_ok (b : Except PyErr α) (f : PyErr → α) :
    ∃ a, pyCatch b f = .ok a := by
  cases b <;> exact ⟨_, rfl⟩

/-! ### C1 -/

/-- C1: for every tool name and argument mapping, `call_tool` returns a
textual result (`Except.ok`), whatever the external collaborators do —
every handler body sits inside `try/except`, so handler exceptions are
converted to failure text and never propagate; likewise the agent's
`generate_report` returns the "Error saving report" failure text when
the file write raises, instead of propagating the exception. -/
theorem c1_handler_exceptions_contained :
    (∀ (name : String) (args : Args) (env : Env),
      ∃ ts, callTool name args env = Except.ok ts) ∧
    (∀ (topic findings fmtType : String) (dt : DateTime) (e : PyErr),
      ∃ rest, generateReportAgent topic findings fmtType dt (fun _ _ => .error e) =
        "Error saving report: " ++ rest) := by
  constructor
  · intro name args env
    unfold callTool
    split_ifs
    · exact pyCatch_ok _ _
    · exact pyCatch_ok _ _
    · exact pyCatch_ok _ _
    · exact pyCatch_ok _ _
    · exact pyCatch_ok _ _
    · exact ⟨_, rfl⟩
  · intro topic findings fmtType dt e
    exact ⟨_, rfl⟩

/-! ### C5 -/

/-- C5: with no collaboration endpoint configured (absent or empty URL),
connection setup returns immediately in the Disconnected state with
zero attempts, no sleeps, and exactly the built-in tools. -/
theorem c5_standalone_no_endpoint :
    ∀ h, connectSetup none h = ⟨.Disconnected, nativeToolEntries, 0, []⟩ ∧
      connectSetup (some "") h = ⟨.Disconnected, nativeToolEntries, 0, []⟩ := by
  intro h
  constructor
  · rfl
  · simp [connectSetup]

/-! ### C10 -/

/-- C10: the output of `summarize_paper` is the header line (the only
part mentioning `max_length`) followed by a body consisting of a fixed
prefix, exactly the first 200 characters of the input text, and a fixed
tail; `max_length` has no effect on how much of the input is included. -/
theorem c10_summary_prefix_fixed (paperText : String) (maxLength : Int) :
    summarizePaper paperText maxLength =
      summaryHeader maxLength ++
        ("Key Points:\n- " ++ (strTake paperText 200 ++ summaryTail)) := rfl

/-! ### C4 -/

/-- C4: with a configured endpoint whose handshake always fails, the
setup performs exactly 5 attempts, sleeps the fixed 5-second delay
between consecutive attempts (4 sleeps), ends Degraded with only the
built-in tools, and still returns a well-defined outcome (no abort). -/
theorem c4_retry_exhaustion_degraded (u : String) (hu : ¬ u = "")
    (h : Nat → Except PyErr (List ToolEntry))
    (hfail : ∀ i, ∃ e, h i = .error e) :
    connectSetup (some u) h = ⟨.Degraded, nativeToolEntries, 5, [5, 5, 5, 5]⟩ := by
  obtain ⟨e0, h0⟩ := hfail 0
  obtain ⟨e1, h1⟩ := hfail 1
  obtain ⟨e2, h2⟩ := hfail 2
  obtain ⟨e3, h3⟩ := hfail 3
  obtain ⟨e4, h4⟩ := hfail 4
  simp [connectSetup, hu, connectLoop, h0, h1, h2, h3, h4]

/-- Witness for C4 at a concrete endpoint and failing handshake. -/
theorem c4_retry_exhaustion_degraded_w :
    connectSetup (some "http://coral.example") alwaysFailHandshake =
      ⟨.Degraded, nativeToolEntries, 5, [5, 5, 5, 5]⟩ :=
  c4_retry_exhaustion_degraded "http://coral.example" (by decide) alwaysFailHandshake
    (fun _ => ⟨⟨"connection refused"⟩, rfl⟩)

/-! ### C3 -/

/-- C3 counterexample: a remote tool named like the built-in
`web_search` is appended anyway — the resulting tool list carries the
name twice (no `DuplicateToolError` is raised, nothing is flagged, and
pairwise distinctness of names fails), refuting the uniqueness claim. -/
theorem c3_duplicate_name_counterexample :
    ((connectSetup (some "http://coral.example") (fun _ => .ok coralDupTools)).tools.map
        ToolEntry.name) =
      ["web_search", "fetch_url", "track_competitor", "generate_report",
       "summarize_paper", "web_search"] ∧
    ((connectSetup (some "http://coral.example") (fun _ => .ok coralDupTools)).tools.map
        ToolEntry.name).count "web_search" = 2 ∧
    (connectSetup (some "http://coral.example") (fun _ => .ok coralDupTools)).state =
      ConnState.Connected := by
  decide

/-- C3 amended: when the connection succeeds, the remote tools are
appended to the built-in list unconditionally (`all_tools.extend`);
there is no name-collision check, so a colliding remote tool neither
raises an error nor replaces the built-in — both entries remain. -/
theorem c3_remote_tools_appended_unchecked (u : String) (hu : ¬ u = "")
    (ct : List ToolEntry) :
    (connectSetup (some u) (fun _ => .ok ct)).tools = nativeToolEntries ++ ct ∧
    ∀ t ∈ ct, t ∈ (connectSetup (some u) (fun _ => .ok ct)).tools := by
  have h : (connectSetup (some u) (fun _ => .ok ct)).tools = nativeToolEntries ++ ct := by
    simp [connectSetup, hu, connectLoop]
  exact ⟨h, fun t ht => by rw [h]; exact List.mem_append_right _ ht⟩

/-- Witness for C3's amended statement at the colliding catalog. -/
theorem c3_remote_tools_appended_unchecked_w :
    (connectSetup (some "http://coral.example") (fun _ => .ok coralDupTools)).tools =
      nativeToolEntries ++ coralDupTools ∧
    ⟨"web_search", "Remote duplicate of the built-in search"⟩ ∈
      (connectSetup (some "http://coral.example") (fun _ => .ok coralDupTools)).tools :=
  ⟨(c3_remote_tools_appended_unchecked "http://coral.example" (by decide) coralDupTools).1,
   (c3_remote_tools_appended_unchecked "http://coral.example" (by decide) coralDupTools).2
     _ (by decide)⟩

/-! ### C2 -/

set_option maxRecDepth 8192 in
/-- C2 counterexample: invoking `web_search` with an argument mapping
that omits the required `query` (and `track_competitor` omitting the
required `competitor_name`) does not fail with any validation error —
the handler substitutes the default `""` and proceeds, returning a
success-shaped result built from the substituted value. -/
theorem c2_missing_required_counterexample :
    handleWebSearch [] env0 = Except.ok [⟨"1. **T**\n   URL: http://u\n   B..."⟩] ∧
    handleTrackCompetitor [] env0 = Except.ok [⟨"✓ Logged activity for : ..."⟩] := by
  constructor
  · rfl
  · rfl

/-- C2 amended: a tool call omitting a parameter declared required in
the input schema is not rejected; the handler reads it with
`arguments.get(key, "")`, so the call behaves exactly as if the missing
parameter had been supplied as the empty string, and processing
continues with that substituted value (no `ValidationError` exists in
the code). -/
theorem c2_missing_required_default_substituted (args : Args) (env : Env) :
    (argsGet args "query" = none →
      handleWebSearch args env = handleWebSearch (("query", JVal.s "") :: args) env) ∧
    (argsGet args "competitor_name" = none →
      handleTrackCompetitor args env =
        handleTrackCompetitor (("competitor_name", JVal.s "") :: args) env) := by
  constructor
  · intro hq
    have h1 : argsGetD (("query", JVal.s "") :: args) "query" (JVal.s "") = JVal.s "" := by
      simp [argsGetD, argsGet]
    have h2 : argsGetD args "query" (JVal.s "") = JVal.s "" := by
      simp [argsGetD, hq]
    have h3 : ∀ d, argsGetD (("query", JVal.s "") :: args) "num_results" d =
        argsGetD args "num_results" d := by
      intro d
      have : argsGet (("query", JVal.s "") :: args) "num_results" =
          argsGet args "num_results" := by
        show (if "query" = "num_results" then some (JVal.s "")
          else argsGet args "num_results") = argsGet args "num_results"
        rw [if_neg (by decide)]
      simp [argsGetD, this]
    unfold handleWebSearch
    rw [h1, h2, h3]
  · intro hc
    have h1 : argsGetD (("competitor_name", JVal.s "") :: args) "competitor_name"
        (JVal.s "") = JVal.s "" := by
      simp [argsGetD, argsGet]
    have h2 : argsGetD args "competitor_name" (JVal.s "") = JVal.s "" := by
      simp [argsGetD, hc]
    have h3 : ∀ k d, ¬ k = "competitor_name" →
        argsGetD (("competitor_name", JVal.s "") :: args) k d = argsGetD args k d := by
      intro k d hk
      have : argsGet (("competitor_name", JVal.s "") :: args) k = argsGet args k := by
        show (if "competitor_name" = k then some (JVal.s "") else argsGet args k) =
          argsGet args k
        rw [if_neg (fun hcon => hk hcon.symm)]
      simp [argsGetD, this]
    unfold handleTrackCompetitor
    rw [h1, h2, h3 "activity" _ (by decide), h3 "source" _ (by decide)]

/-- Witness for C2's amended statement at the empty argument mapping. -/
theorem c2_missing_required_default_substituted_w :
    argsGet [] "query" = none ∧
    handleWebSearch [] env0 = handleWebSearch [("query", JVal.s "")] env0 ∧
    handleTrackCompetitor [] env0 =
      handleTrackCompetitor [("competitor_name", JVal.s "")] env0 :=
  ⟨rfl, (c2_missing_required_default_substituted [] env0).1 rfl,
   (c2_missing_required_default_substituted [] env0).2 rfl⟩

/-! ### Decimal rendering lemmas -/

/-- Every character `digitChar` produces is a decimal digit. -/
theorem digitChar_isDigit (n : Nat) : (digitChar n).isDigit = true := by
  unfold digitChar
  split_ifs <;> decide

/-- Every character of a rendered number is a decimal digit. -/
theorem natDigitsAux_all_digits (fuel n : Nat) :
    (natDigitsAux fuel n).all Char.isDigit = true := by
  induction fuel generalizing n with
  | zero =>
    show (['0']).all Char.isDigit = true
    decide
  | succ fuel ih =>
    unfold natDigitsAux
    split
    · simp [List.all_cons, digitChar_isDigit]
    · simp [List.all_append, List.all_cons, ih, digitChar_isDigit]

/-- With enough fuel, a number below `10 ^ w` renders in at most `w`
digits. -/
theorem natDigitsAux_length_le (fuel : Nat) :
    ∀ n w, n < fuel → 1 ≤ w → n < 10 ^ w → (natDigitsAux fuel n).length ≤ w := by
  induction fuel with
  | zero => intro n w hn _ _; omega
  | succ fuel ih =>
    intro n w hn hw h10
    unfold natDigitsAux
    split
    · simpa using hw
    · rename_i hge
      have hge10 : 10 ≤ n := by omega
      have hw2 : 2 ≤ w := by
        by_contra hcon
        have hw1 : w = 1 := by omega
        rw [hw1, pow_one] at h10
        omega
      have hrec : n / 10 < fuel := by
        have hd : n / 10 < n := Nat.div_lt_self (by omega) (by omega)
        omega
      have hdiv : n / 10 < 10 ^ (w - 1) := by
        rw [Nat.div_lt_iff_lt_mul (by omega : 0 < 10)]
        calc n < 10 ^ w := h10
          _ = 10 ^ (w - 1) * 10 := by
            rw [← Nat.pow_succ]
            congr 1
            omega
      have hlen := ih (n / 10) (w - 1) hrec (by omega) hdiv
      simp only [List.length_append, List.length_cons, List.length_nil]
      omega

/-- A number below `10 ^ w` renders in at most `w` digits. -/
theorem natDigits_length_le (n w : Nat) (hw : 1 ≤ w) (h : n < 10 ^ w) :
    (natDigits n).length ≤ w :=
  natDigitsAux_length_le (n + 1) n w (Nat.lt_succ_self n) hw h

/-- Zero-padding a number below `10 ^ w` to width `w` yields exactly
`w` characters. -/
theorem padNum_length (w n : Nat) (hw : 1 ≤ w) (h : n < 10 ^ w) :
    (padNum w n).length = w := by
  have hle := natDigits_length_le n w hw h
  simp only [padNum, padZeros, List.length_append, List.length_replicate]
  omega

/-- Padding zeros are digits. -/
theorem replicate_zero_all_digits (k : Nat) :
    (List.replicate k '0').all Char.isDigit = true := by
  induction k with
  | zero => decide
  | succ k ih => simp [List.replicate_succ, List.all_cons, ih]

/-- Every character of a zero-padded number is a decimal digit. -/
theorem padNum_all_digits (w n : Nat) : (padNum w n).all Char.isDigit = true := by
  simp only [padNum, padZeros, natDigits, List.all_append]
  rw [replicate_zero_all_digits, natDigitsAux_all_digits]
  rfl

/-- A two-character list decomposes into its characters. -/
theorem exists_two_of_length {l : List Char} (h : l.length = 2) :
    ∃ a b, l = [a, b] := by
  rcases l with _ | ⟨a, _ | ⟨b, _ | ⟨c, t⟩⟩⟩
  · simp at h
  · simp at h
  · exact ⟨a, b, rfl⟩
  · simp only [List.length_cons] at h; omega

/-- A four-character list decomposes into its characters. -/
theorem exists_four_of_length {l : List Char} (h : l.length = 4) :
    ∃ a b c d, l = [a, b, c, d] := by
  rcases l with _ | ⟨a, _ | ⟨b, _ | ⟨c, _ | ⟨d, _ | ⟨e, t⟩⟩⟩⟩⟩
  · simp at h
  · simp at h
  · simp at h
  · simp at h
  · exact ⟨a, b, c, d, rfl⟩
  · simp only [List.length_cons] at h; omega

/-- `datetime.now().isoformat()` always passes the ISO-8601 recogniser:
the timestamps the logging tools store are well-formed. -/
theorem isoformat_isValidISO8601 (t : DateTime) (h : t.valid) :
    isValidISO8601 t.isoformat = true := by
  obtain ⟨hy1, hy2, hmo1, hmo2, hd1, hd2, hh, hmi, hs, hus⟩ := h
  have p4 : (10:Nat) ^ 4 = 10000 := by norm_num
  have p2 : (10:Nat) ^ 2 = 100 := by norm_num
  have p6 : (10:Nat) ^ 6 = 1000000 := by norm_num
  have hylen : (padNum 4 t.year).length = 4 :=
    padNum_length 4 t.year (by omega) (by omega)
  have hmolen : (padNum 2 t.month).length = 2 :=
    padNum_length 2 t.month (by omega) (by omega)
  have hdlen : (padNum 2 t.day).length = 2 :=
    padNum_length 2 t.day (by omega) (by omega)
  have hhlen : (padNum 2 t.hour).length = 2 :=
    padNum_length 2 t.hour (by omega) (by omega)
  have hmilen : (padNum 2 t.minute).length = 2 :=
    padNum_length 2 t.minute (by omega) (by omega)
  have hslen : (padNum 2 t.second).length = 2 :=
    padNum_length 2 t.second (by omega) (by omega)
  obtain ⟨a1, a2, a3, a4, hy⟩ := exists_four_of_length hylen
  obtain ⟨b1, b2, hmo⟩ := exists_two_of_length hmolen
  obtain ⟨c1, c2, hd⟩ := exists_two_of_length hdlen
  obtain ⟨d1, d2, hhr⟩ := exists_two_of_length hhlen
  obtain ⟨e1, e2, hmin⟩ := exists_two_of_length hmilen
  obtain ⟨f1, f2, hsec⟩ := exists_two_of_length hslen
  have hady : [a1, a2, a3, a4].all Char.isDigit = true := by
    rw [← hy]; exact padNum_all_digits 4 t.year
  have hadmo : [b1, b2].all Char.isDigit = true := by
    rw [← hmo]; exact padNum_all_digits 2 t.month
  have hadd : [c1, c2].all Char.isDigit = true := by
    rw [← hd]; exact padNum_all_digits 2 t.day
  have hadh : [d1, d2].all Char.isDigit = true := by
    rw [← hhr]; exact padNum_all_digits 2 t.hour
  have hadmi : [e1, e2].all Char.isDigit = true := by
    rw [← hmin]; exact padNum_all_digits 2 t.minute
  have hads : [f1, f2].all Char.isDigit = true := by
    rw [← hsec]; exact padNum_all_digits 2 t.second
  simp only [List.all_cons, List.all_nil, Bool.and_eq_true, Bool.and_true] at hady
  simp only [List.all_cons, List.all_nil, Bool.and_eq_true, Bool.and_true] at hadmo
  simp only [List.all_cons, List.all_nil, Bool.and_eq_true, Bool.and_true] at hadd
  simp only [List.all_cons, List.all_nil, Bool.and_eq_true, Bool.and_true] at hadh
  simp only [List.all_cons, List.all_nil, Bool.and_eq_true, Bool.and_true] at hadmi
  simp only [List.all_cons, List.all_nil, Bool.and_eq_true, Bool.and_true] at hads
  obtain ⟨ha1, ha2, ha3, ha4⟩ := hady
  obtain ⟨hb1, hb2⟩ := hadmo
  obtain ⟨hc1, hc2⟩ := hadd
  obtain ⟨hd1', hd2'⟩ := hadh
  obtain ⟨he1, he2⟩ := hadmi
  obtain ⟨hf1, hf2⟩ := hads
  by_cases hms : t.microsecond = 0
  · have hdata : t.isoformat.data =
        a1 :: a2 :: a3 :: a4 :: '-' :: b1 :: b2 :: '-' :: c1 :: c2 :: 'T' ::
        d1 :: d2 :: ':' :: e1 :: e2 :: ':' :: f1 :: f2 :: ([] : List Char) := by
      show padNum 4 t.year ++ '-' :: padNum 2 t.month ++ '-' :: padNum 2 t.day ++
        'T' :: padNum 2 t.hour ++ ':' :: padNum 2 t.minute ++ ':' :: padNum 2 t.second ++
        (if t.microsecond = 0 then [] else '.' :: padNum 6 t.microsecond) = _
      rw [hy, hmo, hd, hhr, hmin, hsec, if_pos hms]
      rfl
    simp [isValidISO8601, hdata, ha1, ha2, ha3, ha4, hb1, hb2, hc1, hc2,
      hd1', hd2', he1, he2, hf1, hf2]
  · have hdata : t.isoformat.data =
        a1 :: a2 :: a3 :: a4 :: '-' :: b1 :: b2 :: '-' :: c1 :: c2 :: 'T' ::
        d1 :: d2 :: ':' :: e1 :: e2 :: ':' :: f1 :: f2 ::
        '.' :: padNum 6 t.microsecond := by
      show padNum 4 t.year ++ '-' :: padNum 2 t.month ++ '-' :: padNum 2 t.day ++
        'T' :: padNum 2 t.hour ++ ':' :: padNum 2 t.minute ++ ':' :: padNum 2 t.second ++
        (if t.microsecond = 0 then [] else '.' :: padNum 6 t.microsecond) = _
      rw [hy, hmo, hd, hhr, hmin, hsec, if_neg hms]
      rfl
    have hfl : (padNum 6 t.microsecond).length = 6 :=
      padNum_length 6 t.microsecond (by omega) (by omega)
    have hfa : (padNum 6 t.microsecond).all Char.isDigit = true :=
      padNum_all_digits 6 t.microsecond
    simp [isValidISO8601, hdata, ha1, ha2, ha3, ha4, hb1, hb2, hc1, hc2,
      hd1', hd2', he1, he2, hf1, hf2, hfl, hfa]

/-! ### Log-store lemmas -/

/-- Sequential writes append in order: the final store is the entries
of the writes, in write order, after whatever was there before. -/
theorem runWrites_eq (ws : List WriteReq) (s : List LogEntry) :
    runWrites ws s = s ++ ws.map entryOf := by
  induction ws generalizing s with
  | nil => simp [runWrites]
  | cons w ws ih => simp [runWrites, trackCompetitorRun, ih]

/-- `l[0:]` is all of `l`. -/
theorem pySliceFrom_zero (l : List α) : pySliceFrom l 0 = l := by
  simp [pySliceFrom]

/-- `l[-limit:]` is all of `l` whenever `limit` covers its length. -/
theorem pySliceFrom_neg_of_le (l : List α) (limit : Int)
    (h : (l.length : Int) ≤ limit) : pySliceFrom l (-limit) = l := by
  unfold pySliceFrom
  split
  · have h0 : ((l.length : Int) + -limit).toNat = 0 := by omega
    rw [h0, List.drop_zero]
  · rename_i hneg
    have hlen : l.length = 0 := by omega
    rw [List.length_eq_zero.mp hlen]
    simp

/-- Slicing the empty list yields the empty list. -/
theorem pySliceFrom_nil (start : Int) : pySliceFrom ([] : List LogEntry) start = [] := by
  unfold pySliceFrom
  split <;> simp

/-- The empty needle is a substring of everything (Python `"" in s`). -/
theorem listHasSub_nil (l : List Char) : listHasSub [] l = true := by
  induction l with
  | nil => rfl
  | cons c r ih => simp [listHasSub, startsWithList, ih]

/-- An empty filter matches every entry. -/
theorem matchingEntries_empty_filter (store : List LogEntry) :
    matchingEntries store "" = store := by
  unfold matchingEntries
  have h : ∀ l : LogEntry, strContainsSub (strLower l.competitor) (strLower "") = true := by
    intro l
    show listHasSub (strLower "").data _ = true
    exact listHasSub_nil _
  exact List.filter_eq_self.mpr (fun a _ => h a)

/-- `handle_get_logs`'s selection is the slice `m[-limit:]` of the
case-insensitive matches `m` — the code's empty-filter shortcut agrees
with filtering by the always-matching empty needle. -/
theorem getLogsSelect_eq (store : List LogEntry) (f : String) (limit : Int) :
    getLogsSelect store f limit = pySliceFrom (matchingEntries store f) (-limit) := by
  unfold getLogsSelect
  by_cases hf : f = ""
  · subst hf
    rw [matchingEntries_empty_filter]
    simp
  · simp [hf, matchingEntries]

/-! ### C6 -/

/-- C6: starting from an empty (absent) log store, N sequential
`track_competitor` writes followed by an unfiltered `query_logs` with
`limit ≥ N` return exactly the N written entries in insertion order;
the last returned entry is the last write, field for field, and every
stored timestamp passes the ISO-8601 recogniser. -/
theorem c6_log_roundtrip (ws : List WriteReq) (limit : Int)
    (hlim : (ws.length : Int) ≤ limit) (hval : ∀ w ∈ ws, w.now.valid) :
    getLogsSelect (runWrites ws []) "" limit = ws.map entryOf ∧
    (getLogsSelect (runWrites ws []) "" limit).getLast? = (ws.getLast?).map entryOf ∧
    ∀ w ∈ ws, isValidISO8601 (entryOf w).timestamp = true := by
  have hstore : runWrites ws [] = ws.map entryOf := by
    simpa using runWrites_eq ws []
  have hsel : getLogsSelect (runWrites ws []) "" limit = ws.map entryOf := by
    rw [hstore, getLogsSelect_eq, matchingEntries_empty_filter]
    exact pySliceFrom_neg_of_le _ limit (by simpa using hlim)
  refine ⟨hsel, ?_, ?_⟩
  · rw [hsel, List.getLast?_map]
  · intro w hw
    exact isoformat_isValidISO8601 w.now (hval w hw)

/-- Witness for C6 at two concrete writes and limit 50. -/
theorem c6_log_roundtrip_w :
    getLogsSelect (runWrites ws2 []) "" 50 = ws2.map entryOf ∧
    (getLogsSelect (runWrites ws2 []) "" 50).getLast? = (ws2.getLast?).map entryOf ∧
    isValidISO8601 (entryOf ⟨"Beta Labs", "Raised funding", "",
      ⟨2025, 7, 11, 16, 45, 0, 0⟩⟩).timestamp = true :=
  ⟨(c6_log_roundtrip ws2 50 (by decide) (by decide)).1,
   (c6_log_roundtrip ws2 50 (by decide) (by decide)).2.1,
   (c6_log_roundtrip ws2 50 (by decide) (by decide)).2.2 _ (by decide)⟩

/-! ### C7 -/

/-- C7 counterexample: with one stored entry, no filter and `limit = 0`,
`query_logs` returns the whole store (the Python slice `logs[-0:]`),
not the "most recent 0 entries" (the empty sequence) the claim's
universal limit quantification would require. -/
theorem c7_limit_zero_counterexample :
    getLogsSelect store1 "" 0 = store1 ∧ getLogsSelect store1 "" 0 ≠ [] := by
  constructor
  · rfl
  · decide

/-- C7 amended: for every store, filter and `limit ≥ 1`, `query_logs`
returns the most recent `limit` of the case-insensitively matching
entries — a suffix of the matches (hence insertion order preserved) of
length `min limit (number of matches)` — and when nothing matches the
handler returns the "No matching logs found." text result, not an
error. -/
theorem c7_query_logs_selection (store : List LogEntry) (f : String) (limit : Int)
    (hl : 1 ≤ limit) :
    List.IsSuffix (getLogsSelect store f limit) (matchingEntries store f) ∧
    (getLogsSelect store f limit).length =
      min (matchingEntries store f).length limit.toNat ∧
    (matchingEntries store f = [] →
      handleGetLogs [("competitor", JVal.s f), ("limit", JVal.i limit)]
        (envWithStore store) = .ok [⟨"No matching logs found."⟩]) := by
  have hm := getLogsSelect_eq store f limit
  have hneg : -limit < 0 := by omega
  have hdrop : getLogsSelect store f limit =
      (matchingEntries store f).drop
        (((matchingEntries store f).length + -limit).toNat) := by
    rw [hm]
    unfold pySliceFrom
    rw [if_pos hneg]
  refine ⟨?_, ?_, ?_⟩
  · rw [hdrop]
    exact List.drop_suffix _ _
  · rw [hdrop, List.length_drop]
    omega
  · intro hempty
    have hsel : getLogsSelect store f limit = [] := by
      rw [hm, hempty]
      exact pySliceFrom_nil _
    simp [handleGetLogs, pyCatch, argsGetD, argsGet, JVal.asStr, JVal.asInt,
      envWithStore, hsel]

/-- Witness for C7's amended statement at a one-entry store and an
unmatched filter. -/
theorem c7_query_logs_selection_w :
    List.IsSuffix (getLogsSelect store1 "zzz" 50) (matchingEntries store1 "zzz") ∧
    (getLogsSelect store1 "zzz" 50).length =
      min (matchingEntries store1 "zzz").length (50 : Int).toNat ∧
    handleGetLogs [("competitor", JVal.s "zzz"), ("limit", JVal.i 50)]
      (envWithStore store1) = .ok [⟨"No matching logs found."⟩] :=
  ⟨(c7_query_logs_selection store1 "zzz" 50 (by decide)).1,
   (c7_query_logs_selection store1 "zzz" 50 (by decide)).2.1,
   (c7_query_logs_selection store1 "zzz" 50 (by decide)).2.2 (by decide)⟩

/-! ### C9 -/

/-- C9: `get_competitor_logs` with `limit = 0` returns every matching
entry, because the most-recent selection is the Python slice
`logs[-limit:]` and `logs[-0:]` is the whole list. -/
theorem c9_limit_zero_returns_all (store : List LogEntry) (f : String) :
    getLogsSelect store f 0 = matchingEntries store f := by
  rw [getLogsSelect_eq]
  simp only [neg_zero]
  exact pySliceFrom_zero _

/-! ### Lowercasing lemmas -/

/-- Lowercasing an uppercase ASCII letter yields a lowercase letter. -/
theorem lowerChar_mem_lower : ∀ c ∈ upperAsciiChars, lowerChar c ∈ lowerAsciiChars := by
  decide

/-- Lowercase ASCII letters are neither the space character nor
uppercase letters. -/
theorem mem_lower_not_space_not_upper :
    ∀ d ∈ lowerAsciiChars, d ≠ ' ' ∧ d ∉ upperAsciiChars := by
  decide

/-- Lowercasing leaves every non-uppercase character unchanged. -/
theorem lowerChar_eq_self (c : Char) (hmem : c ∉ upperAsciiChars) :
    lowerChar c = c := by
  have hA : ¬ c = 'A' := fun h' => hmem (by rw [h']; decide)
  have hB : ¬ c = 'B' := fun h' => hmem (by rw [h']; decide)
  have hC : ¬ c = 'C' := fun h' => hmem (by rw [h']; decide)
  have hD : ¬ c = 'D' := fun h' => hmem (by rw [h']; decide)
  have hE : ¬ c = 'E' := fun h' => hmem (by rw [h']; decide)
  have hF : ¬ c = 'F' := fun h' => hmem (by rw [h']; decide)
  have hG : ¬ c = 'G' := fun h' => hmem (by rw [h']; decide)
  have hH : ¬ c = 'H' := fun h' => hmem (by rw [h']; decide)
  have hI : ¬ c = 'I' := fun h' => hmem (by rw [h']; decide)
  have hJ : ¬ c = 'J' := fun h' => hmem (by rw [h']; decide)
  have hK : ¬ c = 'K' := fun h' => hmem (by rw [h']; decide)
  have hL : ¬ c = 'L' := fun h' => hmem (by rw [h']; decide)
  have hM : ¬ c = 'M' := fun h' => hmem (by rw [h']; decide)
  have hN : ¬ c = 'N' := fun h' => hmem (by rw [h']; decide)
  have hO : ¬ c = 'O' := fun h' => hmem (by rw [h']; decide)
  have hP : ¬ c = 'P' := fun h' => hmem (by rw [h']; decide)
  have hQ : ¬ c = 'Q' := fun h' => hmem (by rw [h']; decide)
  have hR : ¬ c = 'R' := fun h' => hmem (by rw [h']; decide)
  have hS : ¬ c = 'S' := fun h' => hmem (by rw [h']; decide)
  have hT : ¬ c = 'T' := fun h' => hmem (by rw [h']; decide)
  have hU : ¬ c = 'U' := fun h' => hmem (by rw [h']; decide)
  have hV : ¬ c = 'V' := fun h' => hmem (by rw [h']; decide)
  have hW : ¬ c = 'W' := fun h' => hmem (by rw [h']; decide)
  have hX : ¬ c = 'X' := fun h' => hmem (by rw [h']; decide)
  have hY : ¬ c = 'Y' := fun h' => hmem (by rw [h']; decide)
  have hZ : ¬ c = 'Z' := fun h' => hmem (by rw [h']; decide)
  unfold lowerChar
  rw [if_neg hA, if_neg hB, if_neg hC, if_neg hD, if_neg hE, if_neg hF,
    if_neg hG, if_neg hH, if_neg hI, if_neg hJ, if_neg hK, if_neg hL,
    if_neg hM, if_neg hN, if_neg hO, if_neg hP, if_neg hQ, if_neg hR,
    if_neg hS, if_neg hT, if_neg hU, if_neg hV, if_neg hW, if_neg hX,
    if_neg hY, if_neg hZ]

/-! ### C8 -/

/-- C8 counterexample: for topic `"AI/ML Agents"` and format `"text"`,
the saved filename keeps the filesystem-unsafe `'/'` (nothing is
stripped) and carries the extension `.text`, not the claimed `.txt`. -/
theorem c8_filename_counterexample :
    reportFilename "AI/ML Agents" "text" dt0 =
      "report_ai/ml_agents_20250710_0930.text" ∧
    '/' ∈ (reportFilename "AI/ML Agents" "text" dt0).data ∧
    (reportFilename "AI/ML Agents" "text" dt0).data.reverse.take 4 ≠
      (".txt").data.reverse.take 4 := by
  refine ⟨rfl, ?_, ?_⟩
  · decide
  · decide

/-- C8 amended: the filename is `report_` plus the topic with spaces
replaced by underscores and then ASCII-lowercased — all other
characters, including filesystem-unsafe ones, are kept verbatim — plus
the `%Y%m%d_%H%M` timestamp and a dot plus the extension, which is
`md` for markdown and otherwise the format string itself (so `json`
for json and `text`, not `txt`, for text).  The slug contains no space
and no uppercase ASCII letter. -/
theorem c8_filename_structure (topic fmtType : String) (t : DateTime) :
    reportFilename topic fmtType t =
      "report_" ++ strLower (pyReplaceSpaces topic) ++ "_" ++ strftimeCompact t ++
        "." ++ reportExt fmtType ∧
    (∀ c ∈ (strLower (pyReplaceSpaces topic)).data, c ≠ ' ' ∧ c ∉ upperAsciiChars) ∧
    reportExt "markdown" = "md" ∧ reportExt "json" = "json" ∧
    reportExt "text" = "text" := by
  refine ⟨rfl, ?_, rfl, rfl, rfl⟩
  intro c hc
  simp only [strLower, pyReplaceSpaces, List.map_map, List.mem_map,
    Function.comp] at hc
  obtain ⟨c0, _, rfl⟩ := hc
  unfold replaceSpaceChar
  split
  · exact ⟨by decide, by decide⟩
  · rename_i hc0
    by_cases hmem : c0 ∈ upperAsciiChars
    · exact mem_lower_not_space_not_upper _ (lowerChar_mem_lower c0 hmem)
    · rw [lowerChar_eq_self c0 hmem]
      exact ⟨hc0, hmem⟩

/-- Witness for C8's amended statement at the spec's own example topic. -/
theorem c8_filename_structure_w :
    reportFilename "AI Agents" "markdown" dt0 =
      "report_" ++ strLower (pyReplaceSpaces "AI Agents") ++ "_" ++
        strftimeCompact dt0 ++ "." ++ reportExt "markdown" ∧
    ('a' ≠ ' ' ∧ 'a' ∉ upperAsciiChars) ∧
    reportExt "markdown" = "md" ∧ reportExt "json" = "json" ∧
    reportExt "text" = "text" :=
  ⟨(c8_filename_structure "AI Agents" "markdown" dt0).1,
   (c8_filename_structure "AI Agents" "markdown" dt0).2.1 'a' (by decide),
   (c8_filename_structure "AI Agents" "markdown" dt0).2.2.1,
   (c8_filename_structure "AI Agents" "markdown" dt0).2.2.2.1,
   (c8_filename_structure "AI Agents" "markdown" dt0).2.2.2.2⟩
